import Mathlib

/-!
Verification of the near-Earth-object catalog program (models.py, extract.py,
write.py) against its natural-language specification.

Shallow embedding conventions:
* Python strings are `String`; a value that may be Python `None` is an `Option`.
* Python floats are modelled by `PFloat`: either the not-a-number sentinel or
  an exact decimal value (`Dec`).  The program only ever produces NaN as an
  explicit sentinel (`float('nan')`) and never computes with its floats, so
  this captures exactly the distinctions the program relies on.
* Code that can raise an exception is modelled as an `Option`-returning
  function, with `none` for the raising outcome.
* `helpers.py` (`cd_to_datetime`, `datetime_to_str`) and the database link
  phase are part of this repository but are not among the given source files;
  the definitions for them below are modelled from the spec and say so in
  their doc comments.
-/

namespace Neo

/-- A calendar timestamp at minute precision (UTC), as produced by parsing the
close-approach calendar date strings. -/
structure DateTime where
  year : Nat
  month : Nat
  day : Nat
  hour : Nat
  minute : Nat
deriving DecidableEq, Repr

/-- A finite Python float value, represented exactly as a signed decimal
mantissa and a power-of-ten exponent: the value is `m / 10 ^ e`.  The
program never computes with its float values — it parses them, defaults
them, and passes them through to output — so this exact-decimal
representation is faithful for every verified property. -/
structure Dec where
  m : Int
  e : Nat
deriving DecidableEq, Repr

/-- A Python float as used by this program: either the not-a-number sentinel
(`float('nan')`) or an ordinary numeric value. -/
inductive PFloat where
  | nan : PFloat
  | num : Dec → PFloat
deriving DecidableEq, Repr

/-- A value passed to `csv.writer.writerow` in `write.py`: the writer
stringifies each cell.  `vNone` is Python `None` (rendered as the empty
string), `vDt` is a raw `datetime` object (rendered with seconds). -/
inductive PyVal where
  | vStr : String → PyVal
  | vFloat : PFloat → PyVal
  | vBool : Bool → PyVal
  | vDt : DateTime → PyVal
  | vNone : PyVal
deriving DecidableEq, Repr

/-- A JSON value as produced by `json.dump` in `write_to_json`. -/
inductive JVal where
  | null : JVal
  | str : String → JVal
  | num : PFloat → JVal
  | bool : Bool → JVal
deriving DecidableEq, Repr

/-- `xs.index x` from Python: the index of the first occurrence of `x`, or
`none` where Python raises `ValueError`. -/
def listIndex (xs : List String) (x : String) : Option Nat :=
  match xs with
  | [] => none
  | y :: ys => if y = x then some 0 else (listIndex ys x).map (· + 1)

/-- Interpret a nonempty list of decimal digit characters as a natural
number; `none` if the list is empty or contains a non-digit. -/
def digitsToNat (cs : List Char) : Option Nat :=
  match cs with
  | [] => none
  | _ =>
    cs.foldl
      (fun acc c =>
        match acc with
        | none => none
        | some n => if c.isDigit then some (n * 10 + (c.toNat - 48)) else none)
      (some 0)

/-- The Python builtin `float(s)` on the plain decimal literals this data set
uses (optionally signed, digits with an optional fractional part); `none`
where Python raises `ValueError`. -/
def parseFloat (s : String) : Option Dec :=
  let core : List Char → Option Dec := fun cs =>
    match cs.splitOn '.' with
    | [intPart] => (digitsToNat intPart).map (fun n => ⟨n, 0⟩)
    | [intPart, fracPart] =>
      match intPart, fracPart with
      | [], [] => none
      | [], f => (digitsToNat f).map (fun n => ⟨n, f.length⟩)
      | i, [] => (digitsToNat i).map (fun n => ⟨n, 0⟩)
      | i, f =>
        match digitsToNat i, digitsToNat f with
        | some ni, some nf =>
          some ⟨(ni * 10 ^ f.length + nf : Nat), f.length⟩
        | _, _ => none
    | _ => none
  match s.toList with
  | '-' :: rest => (core rest).map (fun d => ⟨-d.m, d.e⟩)
  | cs => core cs

/-- Month abbreviations of the fixed textual calendar format. -/
def monthNames : List String :=
  ["Jan", "Feb", "Mar", "Apr", "May", "Jun",
   "Jul", "Aug", "Sep", "Oct", "Nov", "Dec"]

/-- Modelled from the spec: `helpers.cd_to_datetime` is part of this
repository but not among the given source files.  Per the spec, an approach
time is "parsed from a fixed textual calendar format into a timestamp;
missing/unparseable → null".  The format of the NASA close-approach data is
`YYYY-Mon-DD HH:MM` (e.g. `2020-Jan-01 00:00`); an unparseable string
yields `none`. -/
def cd_to_datetime (s : String) : Option DateTime :=
  match s.toList.splitOn ' ' with
  | [datePart, timePart] =>
    match datePart.splitOn '-', timePart.splitOn ':' with
    | [y, mon, d], [h, mi] =>
      match digitsToNat y, listIndex monthNames (String.mk mon),
            digitsToNat d, digitsToNat h, digitsToNat mi with
      | some yn, some mIdx, some dn, some hn, some mn =>
        if 1 ≤ dn ∧ dn ≤ 31 ∧ hn ≤ 23 ∧ mn ≤ 59 then
          some ⟨yn, mIdx + 1, dn, hn, mn⟩
        else none
      | _, _, _, _, _ => none
    | _, _ => none
  | _ => none

/-- Left-pad a decimal rendering to two digits. -/
def pad2 (n : Nat) : String :=
  if n < 10 then "0" ++ toString n else toString n

/-- Left-pad a decimal rendering to four digits. -/
def pad4 (n : Nat) : String :=
  if n < 10 then "000" ++ toString n
  else if n < 100 then "00" ++ toString n
  else if n < 1000 then "0" ++ toString n
  else toString n

/-- Modelled from the spec: `helpers.datetime_to_str` is part of this
repository but not among the given source files.  Per the spec it is "a
canonical time-to-string formatter" that "yields a fixed minute-precision
format (no seconds)": `YYYY-MM-DD HH:MM`. -/
def datetime_to_str (t : DateTime) : String :=
  pad4 t.year ++ "-" ++ pad2 t.month ++ "-" ++ pad2 t.day ++ " " ++
    pad2 t.hour ++ ":" ++ pad2 t.minute

/-- CPython `str()` of a `datetime` whose seconds are zero (every timestamp
in this program comes from minute-precision input): the default
representation includes the seconds field. -/
def pyStrDatetime (t : DateTime) : String :=
  datetime_to_str t ++ ":00"

/-- CPython `str()` of an optional string, as used by an f-string on a field
that may be `None`: `None` renders as the text `"None"`. -/
def pyStrOptString (s : Option String) : String :=
  match s with
  | none => "None"
  | some t => t

/-- A `NearEarthObject` (models.py).  The `approaches` back-reference
collection is populated by the database link phase, carried outside this
structure to break the Object/Approach reference cycle (spec §9); none of
the verified operations below reads it. -/
structure NearEarthObject where
  designation : String
  name : Option String
  diameter : PFloat
  hazardous : Bool
deriving DecidableEq, Repr

/-- The raw keyword arguments consumed by `NearEarthObject.__init__`
(models.py lines 34–48).  Each is an optional string: `none` is Python
`None`, and the source data otherwise supplies strings. -/
structure NeoInfo where
  designation : Option String
  name : Option String
  diameter : Option String
  hazardous : Option String
deriving DecidableEq, Repr

/-- `'' if not info['designation'] else info['designation']` (models.py
lines 40–41 and 92–93): a missing or empty designation normalizes to the
empty string. -/
def normDesignation (s : Option String) : String :=
  match s with
  | none => ""
  | some t => if t = "" then "" else t

/-- `None if not info['name'] or info['name'] == '' else info['name']`
(models.py lines 42–43): a missing or empty name normalizes to the `None`
sentinel. -/
def normName (s : Option String) : Option String :=
  match s with
  | none => none
  | some t => if t = "" then none else some t

/-- `float('nan') if not info['diameter'] or info['diameter'] == '' else
float(info['diameter'])` (models.py lines 44–46): a missing or empty
diameter normalizes to the NaN sentinel; `none` where `float(...)` would
raise on a non-empty non-numeric string. -/
def normDiameter (s : Option String) : Option PFloat :=
  match s with
  | none => some PFloat.nan
  | some t =>
    if t = "" then some PFloat.nan else (parseFloat t).map PFloat.num

/-- `0.0 if not x else float(x)` (models.py lines 96–99): a missing or
empty distance/velocity defaults to 0.0; `none` where `float(...)` would
raise on a non-empty non-numeric string. -/
def pyFloatDefault0 (s : Option String) : Option Dec :=
  match s with
  | none => some ⟨0, 0⟩
  | some t => if t = "" then some ⟨0, 0⟩ else parseFloat t

/-- `None if not info['time'] else cd_to_datetime(info['time'])` (models.py
lines 94–95). -/
def parseApproachTime (s : Option String) : Option DateTime :=
  match s with
  | none => none
  | some t => if t = "" then none else cd_to_datetime t

/-- `NearEarthObject.__init__` (models.py lines 34–48).  Returns `none` only
where `float(info['diameter'])` would raise; every other input constructs
an object.  `hazardous` is `True if info['hazardous'] == 'Y' else False`
(line 47). -/
def mkNeo (info : NeoInfo) : Option NearEarthObject :=
  match normDiameter info.diameter with
  | none => none
  | some d =>
    some ⟨normDesignation info.designation, normName info.name, d,
          decide (info.hazardous = some "Y")⟩

/-- `NearEarthObject.fullname` (models.py lines 50–53): the f-string
`f"{self.designation} ({self.name})"`; a `None` name renders as the text
`"None"`. -/
def NearEarthObject.fullname (neo : NearEarthObject) : String :=
  neo.designation ++ " (" ++ pyStrOptString neo.name ++ ")"

/-- A `CloseApproach` (models.py).  `neo` is `none` until the database link
phase replaces it. -/
structure CloseApproach where
  approachDesignation : String
  time : Option DateTime
  distance : Dec
  velocity : Dec
  neo : Option NearEarthObject
deriving DecidableEq, Repr

/-- The raw keyword arguments consumed by `CloseApproach.__init__`
(models.py lines 86–100). -/
structure ApproachInfo where
  designation : Option String
  time : Option String
  distance : Option String
  velocity : Option String
deriving DecidableEq, Repr

/-- `CloseApproach.__init__` (models.py lines 86–100).  Returns `none` only
where `float(...)` would raise on a non-empty non-numeric distance or
velocity string:
* `_designation`: `'' if not info['designation'] else info['designation']`
* time: `None if not info['time'] else cd_to_datetime(info['time'])`
* distance: `0.0 if not info['distance'] else float(info['distance'])`
* velocity: `0.0 if not info['velocity'] else float(info['velocity'])`
* neo: `None` -/
def mkCloseApproach (info : ApproachInfo) : Option CloseApproach :=
  match pyFloatDefault0 info.distance, pyFloatDefault0 info.velocity with
  | some d, some v =>
    some ⟨normDesignation info.designation, parseApproachTime info.time,
          d, v, none⟩
  | _, _ => none

/-- `CloseApproach.time_str` (models.py lines 102–115): formats the approach
time with the canonical minute-precision formatter. -/
def CloseApproach.time_str (ca : CloseApproach) : Option String :=
  ca.time.map datetime_to_str

/-- Map a fallible function over a list, failing the whole traversal on the
first failure (an exception inside a Python loop or comprehension aborts the
enclosing call, so no partial list escapes). -/
def mapOpt (f : α → Option β) : List α → Option (List β)
  | [] => some []
  | a :: as =>
    match f a with
    | none => none
    | some b =>
      match mapOpt f as with
      | none => none
      | some bs => some (b :: bs)

/-- Construct one `NearEarthObject` from one CSV data row given the header
indices of the four fields of interest (the loop body of `load_neos`,
extract.py lines 36–41).  A row too short for one of the indices is a Python
`IndexError`, hence `none`. -/
def neoFromRow (ipdes iname ipha idiameter : Nat) (row : List String) :
    Option NearEarthObject :=
  match row.get? ipdes, row.get? iname, row.get? idiameter,
        row.get? ipha with
  | some d, some n, some diam, some h =>
    mkNeo ⟨some d, some n, some diam, some h⟩
  | _, _, _, _ => none

/-- `load_neos` (extract.py lines 20–43), over the already-parsed CSV
content: the header row `fields` followed by the data rows.  The field
indices of `['pdes', 'name', 'pha', 'diameter']` are resolved against the
header first (`fields.index` raises `ValueError` on a missing name, hence
`none` before any row is processed); then one object is built per row. -/
def load_neos (fields : List String) (rows : List (List String)) :
    Option (List NearEarthObject) :=
  match listIndex fields "pdes", listIndex fields "name",
        listIndex fields "pha", listIndex fields "diameter" with
  | some ipdes, some iname, some ipha, some idiameter =>
    mapOpt (neoFromRow ipdes iname ipha idiameter) rows
  | _, _, _, _ => none

/-- Construct one `CloseApproach` from one JSON data entry given the field
indices of the four fields of interest (the comprehension body of
`load_approaches`, extract.py lines 64–68).  Entries are lists of optional
strings (`none` for a JSON null); an entry too short for one of the indices
is a Python `IndexError`, hence `none`. -/
def approachFromItem (ides icd idist ivrel : Nat)
    (item : List (Option String)) : Option CloseApproach :=
  match item.get? ides, item.get? icd, item.get? idist, item.get? ivrel with
  | some d, some t, some dist, some v => mkCloseApproach ⟨d, t, dist, v⟩
  | _, _, _, _ => none

/-- `load_approaches` (extract.py lines 46–71), over the already-parsed JSON
content: the `fields` array and the `data` array.  The field indices of
`['des', 'cd', 'dist', 'v_rel']` are resolved against `fields` first
(`fields.index` raises `ValueError` on a missing name, hence `none` before
any entry is processed); then one approach is built per data entry. -/
def load_approaches (fields : List String)
    (data : List (List (Option String))) : Option (List CloseApproach) :=
  match listIndex fields "des", listIndex fields "cd",
        listIndex fields "dist", listIndex fields "v_rel" with
  | some ides, some icd, some idist, some ivrel =>
    mapOpt (approachFromItem ides icd idist ivrel) data
  | _, _, _, _ => none

/-- The fixed header row of `write_to_csv` (write.py lines 29–31). -/
def csvHeader : List PyVal :=
  [PyVal.vStr "datetime_utc", PyVal.vStr "distance_au",
   PyVal.vStr "velocity_km_s", PyVal.vStr "designation",
   PyVal.vStr "name", PyVal.vStr "diameter_km",
   PyVal.vStr "potentially_hazardous"]

/-- The `closeApproach.time` cell of a CSV row: the raw `datetime` object
(or `None`) is handed to the CSV writer, not the formatted `time_str`. -/
def csvTimeCell (t : Option DateTime) : PyVal :=
  match t with
  | none => PyVal.vNone
  | some d => PyVal.vDt d

/-- The `closeApproach.neo.name` cell of a CSV row: the optional name is
handed to the CSV writer as-is. -/
def csvNameCell (n : Option String) : PyVal :=
  match n with
  | none => PyVal.vNone
  | some s => PyVal.vStr s

/-- One output row of `write_to_csv` (write.py lines 37–43): the values
passed to `writer.writerow`, in source order.  Reading an attribute off
`closeApproach.neo` when it is `None` is a Python `AttributeError`, hence
`none`. -/
def csvRow (ca : CloseApproach) : Option (List PyVal) :=
  match ca.neo with
  | none => none
  | some neo =>
    some [csvTimeCell ca.time, PyVal.vFloat (PFloat.num ca.distance),
          PyVal.vFloat (PFloat.num ca.velocity), PyVal.vStr neo.designation,
          csvNameCell neo.name, PyVal.vFloat neo.diameter,
          PyVal.vBool neo.hazardous]

/-- `write_to_csv` (write.py lines 18–43), as the sequence of rows handed to
the CSV writer: the fixed header row, then one row per approach of the
`results` stream in order. -/
def write_to_csv (results : List CloseApproach) : Option (List (List PyVal)) :=
  (mapOpt csvRow results).map (fun rows => csvHeader :: rows)

/-- How the CSV writer stringifies one cell: strings verbatim, `None` as the
empty string, booleans as `True`/`False`, a raw `datetime` via `str()`
(seconds included), NaN as `nan`.  The decimal rendering of an ordinary
float is irrelevant to every property below and is left as the rational's
own rendering. -/
def csvCellString (v : PyVal) : String :=
  match v with
  | PyVal.vStr s => s
  | PyVal.vFloat PFloat.nan => "nan"
  | PyVal.vFloat (PFloat.num d) => toString d.m ++ "E-" ++ toString d.e
  | PyVal.vBool b => if b then "True" else "False"
  | PyVal.vDt t => pyStrDatetime t
  | PyVal.vNone => ""

/-- The nested `neo` dictionary of one `write_to_json` entry (write.py lines
62–66). -/
structure NeoJson where
  designation : JVal
  name : JVal
  diameter_km : JVal
  potentially_hazardous : JVal
deriving DecidableEq, Repr

/-- One entry of the `write_to_json` output array (write.py lines 67–71). -/
structure JsonEntry where
  datetime_utc : JVal
  distance_au : JVal
  velocity_km_s : JVal
  neo : NeoJson
deriving DecidableEq, Repr

/-- One entry built by the `write_to_json` loop (write.py lines 61–72).
Reading an attribute off `closeApproach.neo` when it is `None` is a Python
`AttributeError`, hence `none`.  `str(closeApproach.neo.designation)` of a
string is that string; a `None` name passes through as JSON null; an absent
time serializes as null (spec §6: "formatted string, or omitted/null if
time absent" — `helpers.datetime_to_str` is not among the given source
files). -/
def jsonEntry (ca : CloseApproach) : Option JsonEntry :=
  match ca.neo with
  | none => none
  | some neo =>
    some
      { datetime_utc := match ca.time with
          | none => JVal.null
          | some t => JVal.str (datetime_to_str t)
        distance_au := JVal.num (PFloat.num ca.distance)
        velocity_km_s := JVal.num (PFloat.num ca.velocity)
        neo :=
          { designation := JVal.str neo.designation
            name := match neo.name with
              | none => JVal.null
              | some n => JVal.str n
            diameter_km := JVal.num neo.diameter
            potentially_hazardous := JVal.bool neo.hazardous } }

/-- `write_to_json` (write.py lines 46–74), as the array handed to
`json.dump`: one entry per approach of the `results` stream in order. -/
def write_to_json (results : List CloseApproach) : Option (List JsonEntry) :=
  mapOpt jsonEntry results

/-- Modelled from the spec: the unknown-object sentinel of the database link
phase (the `NEODatabase` module is part of this repository but not among the
given source files).  Spec §7: serialization of an unresolved approach shows
"visible placeholder values (empty name, not-a-number diameter, false
hazardous)". -/
def unknownNeo : NearEarthObject :=
  { designation := "", name := none, diameter := PFloat.nan,
    hazardous := false }

/-- Modelled from the spec: the database link phase (the `NEODatabase`
module is part of this repository but not among the given source files).
Spec §4.2: for every approach, its designation is resolved against the
object index; on hit the approach's `neo` reference is set to that object,
on miss "the Approach is linked to a sentinel 'unknown object' rather than
raising", and it is never dropped from the approach collection. -/
def linkApproaches (neos : List NearEarthObject) (cas : List CloseApproach) :
    List CloseApproach :=
  cas.map (fun ca =>
    { ca with
      neo := some ((neos.find? (fun n =>
        n.designation = ca.approachDesignation)).getD unknownNeo) })

/-- Concrete sample object: Eros (spec §8 example), as loaded from the raw
fields `433`, `Eros`, `16.84`, `N`. -/
def erosNeo : NearEarthObject :=
  { designation := "433", name := some "Eros",
    diameter := PFloat.num ⟨1684, 2⟩, hazardous := false }

/-- Concrete sample approach already linked to Eros (distance 0.5 AU,
velocity 10.0 km/s). -/
def sampleLinkedApproach : CloseApproach :=
  { approachDesignation := "433", time := some ⟨2020, 1, 1, 0, 0⟩,
    distance := ⟨5, 1⟩, velocity := ⟨100, 1⟩, neo := some erosNeo }

/-- Concrete sample approach whose designation matches no object, before
linking. -/
def orphanApproach : CloseApproach :=
  { approachDesignation := "999", time := some ⟨2020, 1, 1, 0, 0⟩,
    distance := ⟨5, 1⟩, velocity := ⟨100, 1⟩, neo := none }

/-- Concrete sample approach linked to the unknown-object sentinel. -/
def orphanLinkedApproach : CloseApproach :=
  { orphanApproach with neo := some unknownNeo }

/-- Concrete raw input with an unparseable (non-empty, malformed) time
string. -/
def badTimeInfo : ApproachInfo :=
  { designation := some "433", time := some "garbage",
    distance := some "0.5", velocity := some "10.0" }

theorem mapOpt_length {f : α → Option β} :
    ∀ {xs : List α} {ys : List β}, mapOpt f xs = some ys →
      ys.length = xs.length := by
  intro xs
  induction xs with
  | nil =>
    intro ys h
    simp only [mapOpt, Option.some.injEq] at h
    subst h
    rfl
  | cons a as ih =>
    intro ys h
    simp only [mapOpt] at h
    cases hfa : f a with
    | none => rw [hfa] at h; exact absurd h (by simp)
    | some b =>
      rw [hfa] at h
      cases hrec : mapOpt f as with
      | none => rw [hrec] at h; exact absurd h (by simp)
      | some bs =>
        rw [hrec] at h
        simp only [Option.some.injEq] at h
        subst h
        simp [ih hrec]

theorem mapOpt_get {f : α → Option β} :
    ∀ {xs : List α} {ys : List β}, mapOpt f xs = some ys →
      ∀ i (h1 : i < xs.length) (h2 : i < ys.length),
        f (xs.get ⟨i, h1⟩) = some (ys.get ⟨i, h2⟩) := by
  intro xs
  induction xs with
  | nil =>
    intro ys h i h1
    exact absurd h1 (by simp)
  | cons a as ih =>
    intro ys h i h1 h2
    simp only [mapOpt] at h
    cases hfa : f a with
    | none => rw [hfa] at h; exact absurd h (by simp)
    | some b =>
      rw [hfa] at h
      cases hrec : mapOpt f as with
      | none => rw [hrec] at h; exact absurd h (by simp)
      | some bs =>
        rw [hrec] at h
        simp only [Option.some.injEq] at h
        subst h
        cases i with
        | zero => simpa using hfa
        | succ j =>
          exact ih hrec j (Nat.lt_of_succ_lt_succ h1)
            (Nat.lt_of_succ_lt_succ h2)

theorem mapOpt_isSome {f : α → Option β} :
    ∀ {xs : List α}, (∀ a ∈ xs, f a ≠ none) →
      ∃ ys, mapOpt f xs = some ys := by
  intro xs
  induction xs with
  | nil => intro _; exact ⟨[], rfl⟩
  | cons a as ih =>
    intro h
    obtain ⟨b, hb⟩ := Option.ne_none_iff_exists.mp (h a (by simp))
    obtain ⟨bs, hbs⟩ := ih (fun x hx => h x (by simp [hx]))
    exact ⟨b :: bs, by simp [mapOpt, ← hb, hbs]⟩

theorem listIndex_eq_none {xs : List String} {x : String} (h : x ∉ xs) :
    listIndex xs x = none := by
  induction xs with
  | nil => rfl
  | cons y ys ih =>
    simp only [List.mem_cons, not_or] at h
    simp [listIndex, Ne.symm h.1, ih h.2]

/-- C4 (corrected): the claim as originally stated is refuted below; this is
the behavior the code actually has at its falsifying input.  `fullname` of
an object constructed without a name renders the Python null placeholder
`None` inside the parentheses (`"433 (None)"`) instead of omitting the
name. -/
theorem fullname_none_counterexample :
    (mkNeo ⟨some "433", some "", some "", some ""⟩).map
        NearEarthObject.fullname = some "433 (None)" ∧
    "433 (None)" ≠ "433" ∧ "433 (None)" ≠ "433 ()" := by
  refine ⟨rfl, by decide, by decide⟩

/-- C4 (amended): for every object, `fullname` is the designation composed
with the parenthesized name when a name is present (designation `433` with
name `Eros` yields exactly `433 (Eros)`); when the name is absent, the
null placeholder `None` is rendered inside the parentheses. -/
theorem fullname_spec (neo : NearEarthObject) :
    (∀ n, neo.name = some n →
      neo.fullname = neo.designation ++ " (" ++ n ++ ")") ∧
    (neo.name = none → neo.fullname = neo.designation ++ " (None)") := by
  constructor
  · intro n hn
    simp [NearEarthObject.fullname, pyStrOptString, hn]
  · intro hn
    simp only [NearEarthObject.fullname, pyStrOptString, hn]
    rw [String.append_assoc, String.append_assoc]
    rfl

/-- Witness for C4: the spec §8 example, `433` with name `Eros`, yields
exactly `433 (Eros)`. -/
theorem fullname_spec_witness : erosNeo.fullname = "433 (Eros)" :=
  ((fullname_spec erosNeo).1 "Eros" rfl).trans rfl

/-- C5 (confirmed): for every raw hazardous token, the constructed
`hazardous` field is true exactly when the token equals the single
recognized truthy token `Y`; every other input (lowercase variants, other
truthy-looking strings, missing values) yields false. -/
theorem hazardous_iff_Y (info : NeoInfo) (neo : NearEarthObject)
    (h : mkNeo info = some neo) :
    neo.hazardous = true ↔ info.hazardous = some "Y" := by
  unfold mkNeo at h
  cases hd : normDiameter info.diameter with
  | none => rw [hd] at h; exact absurd h (by simp)
  | some d =>
    rw [hd] at h
    simp only [Option.some.injEq] at h
    subst h
    simp

/-- Witness for C5: the token `Y` constructs a hazardous object, and the
lowercase token `y` does not. -/
theorem hazardous_iff_Y_witness :
    (∃ neo, mkNeo ⟨some "433", some "Eros", some "", some "Y"⟩ = some neo ∧
      neo.hazardous = true) ∧
    ∃ neo, mkNeo ⟨some "433", some "Eros", some "", some "y"⟩ = some neo ∧
      ¬ neo.hazardous = true := by
  constructor
  · refine ⟨⟨"433", some "Eros", PFloat.nan, true⟩, by decide, ?_⟩
    exact (hazardous_iff_Y ⟨some "433", some "Eros", some "", some "Y"⟩
      ⟨"433", some "Eros", PFloat.nan, true⟩ (by decide)).mpr rfl
  · refine ⟨⟨"433", some "Eros", PFloat.nan, false⟩, by decide, ?hc⟩
    intro hc
    exact absurd ((hazardous_iff_Y ⟨some "433", some "Eros", some "", some "y"⟩
      ⟨"433", some "Eros", PFloat.nan, false⟩ (by decide)).mp hc) (by decide)

/-- C6 (confirmed): for every constructed object, a missing or empty
designation yields the empty string (the field is a `String`, never null);
a missing or empty name yields the `none` sentinel, distinct from the
empty string; a missing or empty diameter yields the NaN sentinel,
distinct from zero. -/
theorem normalization_defaults (info : NeoInfo) (neo : NearEarthObject)
    (h : mkNeo info = some neo) :
    ((info.designation = none ∨ info.designation = some "") →
      neo.designation = "") ∧
    ((info.name = none ∨ info.name = some "") → neo.name = none) ∧
    ((info.diameter = none ∨ info.diameter = some "") →
      neo.diameter = PFloat.nan) ∧
    (none : Option String) ≠ some "" ∧
    PFloat.nan ≠ PFloat.num ⟨0, 0⟩ := by
  unfold mkNeo at h
  cases hd : normDiameter info.diameter with
  | none => rw [hd] at h; exact absurd h (by simp)
  | some d =>
    rw [hd] at h
    simp only [Option.some.injEq] at h
    subst h
    refine ⟨?_, ?_, ?_, by simp, by simp⟩
    · rintro (h1 | h1) <;> simp [normDesignation, h1]
    · rintro (h1 | h1) <;> simp [normName, h1]
    · rintro (h1 | h1) <;> rw [h1] at hd <;>
        simp [normDiameter] at hd <;> simp [← hd]

/-- Witness for C6: all-missing raw fields construct the object with empty
designation, `none` name and NaN diameter. -/
theorem normalization_defaults_witness :
    ∃ neo, mkNeo ⟨none, none, none, none⟩ = some neo ∧
      neo.designation = "" ∧ neo.name = none ∧ neo.diameter = PFloat.nan := by
  refine ⟨⟨"", none, PFloat.nan, false⟩, by decide, ?_, ?_, ?_⟩
  · exact (normalization_defaults ⟨none, none, none, none⟩
      ⟨"", none, PFloat.nan, false⟩ (by decide)).1 (Or.inl rfl)
  · exact (normalization_defaults ⟨none, none, none, none⟩
      ⟨"", none, PFloat.nan, false⟩ (by decide)).2.1 (Or.inl rfl)
  · exact (normalization_defaults ⟨none, none, none, none⟩
      ⟨"", none, PFloat.nan, false⟩ (by decide)).2.2.1 (Or.inl rfl)

/-- C3 (confirmed; `helpers.cd_to_datetime` modelled from the spec): whether
construction succeeds does not depend on the raw time input at all (so an
unparseable time never raises), and on success the time field is null when
the raw time is missing, empty or unparseable, and the parsed timestamp
otherwise. -/
theorem approach_time_null_or_parsed (info : ApproachInfo) :
    (∀ s, (mkCloseApproach { info with time := s }).isSome =
          (mkCloseApproach { info with time := none }).isSome) ∧
    ∀ ca, mkCloseApproach info = some ca →
      ((info.time = none ∨
        (∃ s, info.time = some s ∧ (s = "" ∨ cd_to_datetime s = none))) →
        ca.time = none) ∧
      (∀ s t, info.time = some s → s ≠ "" → cd_to_datetime s = some t →
        ca.time = some t) := by
  constructor
  · intro s
    cases hd : pyFloatDefault0 info.distance <;>
      cases hv : pyFloatDefault0 info.velocity <;>
        simp [mkCloseApproach, hd, hv]
  · intro ca h
    unfold mkCloseApproach at h
    cases hd : pyFloatDefault0 info.distance with
    | none => rw [hd] at h; exact absurd h (by simp)
    | some d =>
      cases hv : pyFloatDefault0 info.velocity with
      | none => rw [hd, hv] at h; exact absurd h (by simp)
      | some v =>
        rw [hd, hv] at h
        simp only [Option.some.injEq] at h
        subst h
        constructor
        · rintro (h1 | ⟨s, hs, (h2 | h2)⟩)
          · simp [parseApproachTime, h1]
          · simp [parseApproachTime, hs, h2]
          · by_cases hse : s = "" <;>
              simp [parseApproachTime, hs, hse, h2]
        · intro s t hs hne hparse
          simp [parseApproachTime, hs, hne, hparse]

/-- Witness for C3: the unparseable time string `garbage` yields a
constructed approach whose time is null (no exception), and a well-formed
time string yields the parsed timestamp. -/
theorem approach_time_null_or_parsed_witness :
    (mkCloseApproach badTimeInfo).map CloseApproach.time = some none ∧
    (mkCloseApproach
        ⟨some "433", some "2020-Jan-01 00:00", some "0.5", some "10.0"⟩).map
      CloseApproach.time = some (some ⟨2020, 1, 1, 0, 0⟩) := by
  constructor
  · have he : mkCloseApproach badTimeInfo =
        some ⟨"433", none, ⟨5, 1⟩, ⟨100, 1⟩, none⟩ := by decide
    have ht := ((approach_time_null_or_parsed badTimeInfo).2 _ he).1
      (Or.inr ⟨"garbage", rfl, Or.inr (by decide)⟩)
    rw [he]
    exact congrArg some ht
  · have he : mkCloseApproach
        ⟨some "433", some "2020-Jan-01 00:00", some "0.5", some "10.0"⟩ =
        some ⟨"433", some ⟨2020, 1, 1, 0, 0⟩, ⟨5, 1⟩, ⟨100, 1⟩, none⟩ := by
      decide
    have ht := ((approach_time_null_or_parsed
        ⟨some "433", some "2020-Jan-01 00:00", some "0.5", some "10.0"⟩).2
      _ he).2 "2020-Jan-01 00:00" ⟨2020, 1, 1, 0, 0⟩ rfl (by decide)
      (by decide)
    rw [he]
    exact congrArg some ht

/-- C2 (code bug): `write_to_csv` hands the raw `closeApproach.time`
datetime object to the CSV writer (write.py line 37) instead of the
canonical minute-precision `time_str`, so the CSV `datetime_utc` cell is
rendered with seconds and differs from the canonical formatter's output,
while the JSON serializer and the display path do use the canonical
formatter.  Evaluated at a concrete linked approach at 2020-01-01 00:00. -/
theorem csv_time_not_formatted :
    ((csvRow sampleLinkedApproach).getD []).get? 0 =
      some (PyVal.vDt ⟨2020, 1, 1, 0, 0⟩) ∧
    csvCellString (PyVal.vDt ⟨2020, 1, 1, 0, 0⟩) = "2020-01-01 00:00:00" ∧
    datetime_to_str ⟨2020, 1, 1, 0, 0⟩ = "2020-01-01 00:00" ∧
    csvCellString (PyVal.vDt ⟨2020, 1, 1, 0, 0⟩) ≠
      datetime_to_str ⟨2020, 1, 1, 0, 0⟩ ∧
    (jsonEntry sampleLinkedApproach).map JsonEntry.datetime_utc =
      some (JVal.str (datetime_to_str ⟨2020, 1, 1, 0, 0⟩)) ∧
    sampleLinkedApproach.time_str =
      some (datetime_to_str ⟨2020, 1, 1, 0, 0⟩) := by
  exact ⟨rfl, rfl, rfl, by decide, rfl, rfl⟩

/-- C10 (confirmed): in the `write_to_json` output, a linked object's
absent name is carried through as the JSON null value — not the empty
string and not a textual marker — while the designation field is always
the string coercion of the object's designation. -/
theorem json_name_null_passthrough (ca : CloseApproach)
    (neo : NearEarthObject) (h : ca.neo = some neo) :
    ∃ e, jsonEntry ca = some e ∧
      e.neo.designation = JVal.str neo.designation ∧
      (neo.name = none → e.neo.name = JVal.null) ∧
      (∀ n, neo.name = some n → e.neo.name = JVal.str n) ∧
      JVal.null ≠ JVal.str "" ∧ JVal.null ≠ JVal.str "None" := by
  refine ⟨_, by rw [jsonEntry, h], ?_, ?_, ?_, by simp, by simp⟩
  · rfl
  · intro hn
    simp [hn]
  · intro n hn
    simp [hn]

/-- Witness for C10: an approach linked to the nameless sentinel object
serializes with a null name and a string designation. -/
theorem json_name_null_passthrough_witness :
    ∃ e, jsonEntry orphanLinkedApproach = some e ∧
      e.neo.name = JVal.null ∧ e.neo.designation = JVal.str "" := by
  obtain ⟨e, he, hdes, hnull, -, -, -⟩ :=
    json_name_null_passthrough orphanLinkedApproach unknownNeo (by decide)
  exact ⟨e, he, hnull rfl, hdes⟩

/-- C7 (confirmed): if the CSV header lacks one of the expected field names
`pdes`, `name`, `pha`, `diameter`, or the JSON fields list lacks one of
`des`, `cd`, `dist`, `v_rel`, then the corresponding loader fails at load
time with an error surfaced to the caller and returns no partial
collection. -/
theorem load_fails_on_missing_field (fields1 fields2 : List String)
    (rows : List (List String)) (data : List (List (Option String))) :
    ((∃ f, f ∈ ["pdes", "name", "pha", "diameter"] ∧ f ∉ fields1) →
      load_neos fields1 rows = none) ∧
    ((∃ f, f ∈ ["des", "cd", "dist", "v_rel"] ∧ f ∉ fields2) →
      load_approaches fields2 data = none) := by
  constructor
  · rintro ⟨f, hf, hnot⟩
    have hf4 : f = "pdes" ∨ f = "name" ∨ f = "pha" ∨ f = "diameter" := by
      simpa using hf
    unfold load_neos
    rcases hf4 with h | h | h | h
    · subst h; rw [listIndex_eq_none hnot]
    · subst h; rw [listIndex_eq_none hnot]
      cases listIndex fields1 "pdes" <;> rfl
    · subst h; rw [listIndex_eq_none hnot]
      cases listIndex fields1 "pdes" <;> cases listIndex fields1 "name" <;>
        rfl
    · subst h; rw [listIndex_eq_none hnot]
      cases listIndex fields1 "pdes" <;> cases listIndex fields1 "name" <;>
        cases listIndex fields1 "pha" <;> rfl
  · rintro ⟨f, hf, hnot⟩
    have hf4 : f = "des" ∨ f = "cd" ∨ f = "dist" ∨ f = "v_rel" := by
      simpa using hf
    unfold load_approaches
    rcases hf4 with h | h | h | h
    · subst h; rw [listIndex_eq_none hnot]
    · subst h; rw [listIndex_eq_none hnot]
      cases listIndex fields2 "des" <;> rfl
    · subst h; rw [listIndex_eq_none hnot]
      cases listIndex fields2 "des" <;> cases listIndex fields2 "cd" <;> rfl
    · subst h; rw [listIndex_eq_none hnot]
      cases listIndex fields2 "des" <;> cases listIndex fields2 "cd" <;>
        cases listIndex fields2 "dist" <;> rfl

/-- Witness for C7: a header missing `pdes` and a fields list missing `des`
make the loaders fail outright. -/
theorem load_fails_on_missing_field_witness :
    load_neos ["name", "pha", "diameter"] [["x", "y", "z"]] = none ∧
    load_approaches ["cd", "dist", "v_rel"] [[some "x"]] = none := by
  have h := load_fails_on_missing_field ["name", "pha", "diameter"]
    ["cd", "dist", "v_rel"] [["x", "y", "z"]] [[some "x"]]
  exact ⟨h.1 ⟨"pdes", by decide, by decide⟩, h.2 ⟨"des", by decide, by decide⟩⟩

/-- C8 (confirmed): when every approach of the results stream is linked,
`write_to_csv` emits exactly the fixed seven-column header as the first
row, followed by exactly one row per approach in results order, each row
drawing its fields from that approach and its linked object in the
header's column order. -/
theorem csv_shape (results : List CloseApproach)
    (h : ∀ ca, ca ∈ results → ca.neo ≠ none) :
    ∃ rows, write_to_csv results = some (csvHeader :: rows) ∧
      csvHeader = [PyVal.vStr "datetime_utc", PyVal.vStr "distance_au",
        PyVal.vStr "velocity_km_s", PyVal.vStr "designation",
        PyVal.vStr "name", PyVal.vStr "diameter_km",
        PyVal.vStr "potentially_hazardous"] ∧
      rows.length = results.length ∧
      ∀ i (h1 : i < results.length) (h2 : i < rows.length),
        ∃ neo, (results.get ⟨i, h1⟩).neo = some neo ∧
          rows.get ⟨i, h2⟩ =
            [csvTimeCell (results.get ⟨i, h1⟩).time,
             PyVal.vFloat (PFloat.num (results.get ⟨i, h1⟩).distance),
             PyVal.vFloat (PFloat.num (results.get ⟨i, h1⟩).velocity),
             PyVal.vStr neo.designation, csvNameCell neo.name,
             PyVal.vFloat neo.diameter, PyVal.vBool neo.hazardous] := by
  have hall : ∀ ca, ca ∈ results → csvRow ca ≠ none := by
    intro ca hca
    cases hneo : ca.neo with
    | none => exact absurd hneo (h ca hca)
    | some neo => simp [csvRow, hneo]
  obtain ⟨rows, hrows⟩ := mapOpt_isSome hall
  refine ⟨rows, by rw [write_to_csv, hrows]; rfl, rfl,
    mapOpt_length hrows, ?_⟩
  intro i h1 h2
  have hi := mapOpt_get hrows i h1 h2
  cases hneo : (results.get ⟨i, h1⟩).neo with
  | none => exact absurd hneo (h _ (List.get_mem results i h1))
  | some neo =>
    rw [csvRow, hneo] at hi
    simp only [Option.some.injEq] at hi
    exact ⟨neo, rfl, hi.symm⟩

/-- Witness for C8: one linked approach produces the header plus exactly
one row. -/
theorem csv_shape_witness :
    ∃ rows, write_to_csv [sampleLinkedApproach] = some (csvHeader :: rows) ∧
      rows.length = 1 := by
  obtain ⟨rows, hw, -, hlen, -⟩ :=
    csv_shape [sampleLinkedApproach] (by decide)
  exact ⟨rows, hw, by simpa using hlen⟩

/-- C9 (confirmed): on any input the loaders accept, `load_neos` returns
exactly one object per CSV data row and `load_approaches` exactly one
approach per JSON data entry, in input order, with element `i` constructed
from row/entry `i`; cross-references play no part in loading. -/
theorem load_no_data_loss (fields1 fields2 : List String)
    (rows : List (List String)) (data : List (List (Option String)))
    (neos : List NearEarthObject) (cas : List CloseApproach)
    (h1 : load_neos fields1 rows = some neos)
    (h2 : load_approaches fields2 data = some cas) :
    neos.length = rows.length ∧ cas.length = data.length ∧
    (∃ ipdes iname ipha idiameter,
      listIndex fields1 "pdes" = some ipdes ∧
      listIndex fields1 "name" = some iname ∧
      listIndex fields1 "pha" = some ipha ∧
      listIndex fields1 "diameter" = some idiameter ∧
      ∀ i (hi : i < rows.length) (hn : i < neos.length),
        neoFromRow ipdes iname ipha idiameter (rows.get ⟨i, hi⟩) =
          some (neos.get ⟨i, hn⟩)) ∧
    ∃ ides icd idist ivrel,
      listIndex fields2 "des" = some ides ∧
      listIndex fields2 "cd" = some icd ∧
      listIndex fields2 "dist" = some idist ∧
      listIndex fields2 "v_rel" = some ivrel ∧
      ∀ i (hi : i < data.length) (hc : i < cas.length),
        approachFromItem ides icd idist ivrel (data.get ⟨i, hi⟩) =
          some (cas.get ⟨i, hc⟩) := by
  unfold load_neos at h1
  unfold load_approaches at h2
  cases ha : listIndex fields1 "pdes" with
  | none => rw [ha] at h1; simp at h1
  | some ipdes =>
  cases hb : listIndex fields1 "name" with
  | none => rw [ha, hb] at h1; simp at h1
  | some iname =>
  cases hc : listIndex fields1 "pha" with
  | none => rw [ha, hb, hc] at h1; simp at h1
  | some ipha =>
  cases hd : listIndex fields1 "diameter" with
  | none => rw [ha, hb, hc, hd] at h1; simp at h1
  | some idiameter =>
  cases he : listIndex fields2 "des" with
  | none => rw [he] at h2; simp at h2
  | some ides =>
  cases hf : listIndex fields2 "cd" with
  | none => rw [he, hf] at h2; simp at h2
  | some icd =>
  cases hg : listIndex fields2 "dist" with
  | none => rw [he, hf, hg] at h2; simp at h2
  | some idist =>
  cases hh : listIndex fields2 "v_rel" with
  | none => rw [he, hf, hg, hh] at h2; simp at h2
  | some ivrel =>
  rw [ha, hb, hc, hd] at h1
  rw [he, hf, hg, hh] at h2
  exact ⟨mapOpt_length h1, mapOpt_length h2,
    ⟨ipdes, iname, ipha, idiameter, rfl, rfl, rfl, rfl,
      fun i hi hn => mapOpt_get h1 i hi hn⟩,
    ⟨ides, icd, idist, ivrel, rfl, rfl, rfl, rfl,
      fun i hi hcs => mapOpt_get h2 i hi hcs⟩⟩

/-- Sample well-formed loader inputs: the CSV header and one data row, and
the JSON fields list and one data entry. -/
def sampleNeoFields : List String := ["pdes", "name", "pha", "diameter"]

/-- One well-formed CSV data row (Eros). -/
def sampleNeoRows : List (List String) := [["433", "Eros", "N", "16.84"]]

/-- The JSON fields list of the close-approach data. -/
def sampleCadFields : List String := ["des", "cd", "dist", "v_rel"]

/-- One well-formed JSON data entry. -/
def sampleCadData : List (List (Option String)) :=
  [[some "433", some "2020-Jan-01 00:00", some "0.5", some "10.0"]]

/-- The approach loaded from `sampleCadData`, before linking. -/
def sampleRawApproach : CloseApproach :=
  { approachDesignation := "433", time := some ⟨2020, 1, 1, 0, 0⟩,
    distance := ⟨5, 1⟩, velocity := ⟨100, 1⟩, neo := none }

/-- Witness for C9: the sample inputs load to exactly one object and one
approach. -/
theorem load_no_data_loss_witness :
    load_neos sampleNeoFields sampleNeoRows = some [erosNeo] ∧
    load_approaches sampleCadFields sampleCadData =
      some [sampleRawApproach] ∧
    [erosNeo].length = sampleNeoRows.length ∧
    [sampleRawApproach].length = sampleCadData.length := by
  have h := load_no_data_loss sampleNeoFields sampleCadFields sampleNeoRows
    sampleCadData [erosNeo] [sampleRawApproach] (by decide) (by decide)
  exact ⟨by decide, by decide, h.1, h.2.1⟩

/-- C1 (confirmed against the spec-modelled link phase): after linking, an
approach whose designation matches no object is linked to the sentinel
unknown object rather than raising; both serializers succeed on the whole
linked collection; and that approach's CSV row and JSON entry show the
placeholder values — empty name cell, NaN diameter, false hazardous (name
null in JSON). -/
theorem orphan_links_to_sentinel (neos : List NearEarthObject)
    (cas : List CloseApproach) :
    (∃ out, write_to_csv (linkApproaches neos cas) = some out) ∧
    (∃ out, write_to_json (linkApproaches neos cas) = some out) ∧
    ∀ ca, ca ∈ linkApproaches neos cas →
      (∀ n, n ∈ neos → n.designation ≠ ca.approachDesignation) →
      ca.neo = some unknownNeo ∧
      csvRow ca = some [csvTimeCell ca.time,
        PyVal.vFloat (PFloat.num ca.distance),
        PyVal.vFloat (PFloat.num ca.velocity), PyVal.vStr "", PyVal.vNone,
        PyVal.vFloat PFloat.nan, PyVal.vBool false] ∧
      ∃ e, jsonEntry ca = some e ∧ e.neo.name = JVal.null ∧
        e.neo.diameter_km = JVal.num PFloat.nan ∧
        e.neo.potentially_hazardous = JVal.bool false := by
  have hlinked : ∀ ca, ca ∈ linkApproaches neos cas → ca.neo ≠ none := by
    intro ca hca
    obtain ⟨ca0, -, rfl⟩ := List.mem_map.mp hca
    simp
  refine ⟨?_, ?_, ?_⟩
  · have hcsv : ∀ ca, ca ∈ linkApproaches neos cas → csvRow ca ≠ none := by
      intro ca hca
      cases hneo : ca.neo with
      | none => exact absurd hneo (hlinked ca hca)
      | some neo => simp [csvRow, hneo]
    obtain ⟨rows, hrows⟩ := mapOpt_isSome hcsv
    exact ⟨csvHeader :: rows, by simp [write_to_csv, hrows]⟩
  · refine mapOpt_isSome ?_
    intro ca hca
    cases hneo : ca.neo with
    | none => exact absurd hneo (hlinked ca hca)
    | some neo => simp [jsonEntry, hneo]
  · intro ca hca hnone
    obtain ⟨ca0, hca0, rfl⟩ := List.mem_map.mp hca
    have hfind : neos.find? (fun n =>
        n.designation = ca0.approachDesignation) = none := by
      rw [List.find?_eq_none]
      intro n hn
      simpa using hnone n hn
    have hneo : ({ ca0 with neo := some ((neos.find? (fun n =>
        n.designation = ca0.approachDesignation)).getD unknownNeo) } :
        CloseApproach).neo = some unknownNeo := by
      rw [hfind]
      rfl
    refine ⟨hneo, ?_, ?_⟩
    · rw [csvRow, hneo]
      rfl
    · refine ⟨_, by rw [jsonEntry, hneo], rfl, rfl, rfl⟩

/-- Witness for C1: linking the orphan approach (designation `999`) against
the catalog containing only Eros (`433`) attaches the sentinel and
serializes with the placeholder values. -/
theorem orphan_links_to_sentinel_witness :
    orphanLinkedApproach.neo = some unknownNeo ∧
    csvRow orphanLinkedApproach =
      some [PyVal.vDt ⟨2020, 1, 1, 0, 0⟩,
        PyVal.vFloat (PFloat.num ⟨5, 1⟩), PyVal.vFloat (PFloat.num ⟨100, 1⟩),
        PyVal.vStr "", PyVal.vNone, PyVal.vFloat PFloat.nan,
        PyVal.vBool false] := by
  have h := (orphan_links_to_sentinel [erosNeo] [orphanApproach]).2.2
    orphanLinkedApproach (by decide) (by decide)
  exact ⟨h.1, h.2.1⟩

end Neo
